import Mathlib

/-!
Shallow embedding of the gonfoot server package: the request middleware
(upgradeHandler, logger, onlyWhenReady, requireBasicAuth, mustReverseProxy),
the route table built in New (src/server/server.go, lines 102-115), and the
body of ListenAndServe together with the listener goroutine listenAndServe
(lines 120-169).  Handlers are modelled as pure functions from the parts of
an http.Request they inspect to the log records they emit and the outcome
they produce; external calls (db.Connect, migrations.Migrate, net.Listen,
httpServer.Shutdown) become explicit parameters standing for their results.
-/

namespace Gonfoot

/-- One structured log record emitted through s.log; each constructor is one
call site in the source, its arguments the attribute values logged there. -/
inductive LogEvent where
  | request (method url : String)
  | notReady (method url : String)
  | unauthorized (method url user : String)
  | authorized (method url user : String)
  | proxyURLParseError (rawURL : String)
  | migrationFailed (err : String)
  | httpServerClosed
  | shutdownSignalReceived
  | httpServerShutdownGracefully
  | failedToListen (addr : String)
  deriving DecidableEq, Repr

/-- The parts of an incoming *http.Request that the embedded handlers read:
r.Method, r.URL.Path (what the mux and StripPrefix operate on), r.URL.RawQuery,
r.ProtoMajor, the first Content-Type header value as returned by
r.Header.Get, and the result of r.BasicAuth() — none when the Authorization
header is absent or malformed, some (user, password) otherwise. -/
structure Request where
  method : String
  path : String
  rawQuery : String
  protoMajor : Nat
  contentType : String
  basicAuth : Option (String × String)
  deriving DecidableEq, Repr

/-- r.URL.Redacted(): a server request URL carries only Path and RawQuery (no
scheme, host or userinfo), so Redacted prints the path, followed by a question
mark and the raw query when the query is nonempty. -/
def Request.urlRedacted (r : Request) : String :=
  if r.rawQuery = "" then r.path else r.path ++ "?" ++ r.rawQuery

/-- A terminal handler whose internals live outside this embedding: the
grpc-gateway mux, the static file server, the prometheus handler, the reverse
proxy transport, and the gRPC server the h2c demultiplexer upgrades to. -/
inductive Terminal where
  | gateway
  | staticFiles
  | metrics
  | proxy
  | grpc
  deriving DecidableEq, Repr

/-- A response written directly by embedded code (http.Error or
http.NotFoundHandler): status code, body text (http.Error appends a trailing
newline, elided here), and the WWW-Authenticate header when set. -/
structure Response where
  status : Nat
  body : String
  wwwAuthenticate : Option String
  deriving DecidableEq, Repr

/-- What running the handler chain on one request produces: either a response
materialised by the embedded code itself, or the request (as possibly
rewritten by StripPrefix) handed to a terminal handler. -/
inductive Outcome where
  | resp (v : Response)
  | term (t : Terminal) (r : Request)
  deriving DecidableEq, Repr

/-- An http.Handler: the log records it emits and what it does with the
request. -/
abbrev Handler := Request → List LogEvent × Outcome

/-- upgradeHandler: route to the gRPC server exactly when the request is
HTTP/2 and its Content-Type header equals "application/grpc"; every other
request goes to the base HTTP handler. -/
def upgradeHandler (base upgrade : Handler) : Handler := fun r =>
  if r.protoMajor = 2 ∧ r.contentType = "application/grpc" then upgrade r
  else base r

/-- logger: log the method and the credential-redacted URL, then invoke the
wrapped handler unconditionally. -/
def logger (handler : Handler) : Handler := fun r =>
  (LogEvent.request r.method r.urlRedacted :: (handler r).1, (handler r).2)

/-- onlyWhenReady: when the ready flag (read from s.ready at the moment the
gate runs) is false, write a 503 via http.Error, log the rejection and stop;
otherwise invoke the wrapped handler on the unchanged request. -/
def onlyWhenReady (ready : Bool) (handler : Handler) : Handler := fun r =>
  if !ready then
    ([LogEvent.notReady r.method r.urlRedacted],
     Outcome.resp ⟨503, "service not ready", none⟩)
  else handler r

/-- subtle.ConstantTimeCompare(x, y) == 1: holds exactly when the two byte
strings are equal (the Go function returns 1 only on equal length and equal
content; its constant-time execution is a timing property outside the
embedding). -/
abbrev constantTimeCompare (x y : String) : Prop := x = y

/-- requireBasicAuth: r.BasicAuth() yields ("", "", false) when the header is
missing or malformed; on a failed check the gate logs the attempted user,
sets the WWW-Authenticate challenge and writes a 401, never invoking the
wrapped handler; on success it logs the user and invokes the handler. -/
def requireBasicAuth (expectedUser expectedPassword : String) (handler : Handler) : Handler := fun r =>
  let user := (r.basicAuth.getD ("", "")).1
  let password := (r.basicAuth.getD ("", "")).2
  if r.basicAuth = none ∨ ¬ constantTimeCompare user expectedUser
      ∨ ¬ constantTimeCompare password expectedPassword then
    ([LogEvent.unauthorized r.method r.urlRedacted user],
     Outcome.resp ⟨401, "Unauthorized", some "Basic realm=\"Restricted\""⟩)
  else
    (LogEvent.authorized r.method r.urlRedacted user :: (handler r).1, (handler r).2)

/-- The leading error check of net/url.Parse: a URL string containing an
ASCII control byte (below 0x20, or 0x7f) is rejected before any parsing. -/
def stringContainsCTLByte (s : String) : Bool :=
  s.data.any (fun c => c.toNat < 32 || c.toNat == 127)

/-- Modelled slice of net/url.Parse: only its first error case, the control
byte check, is embedded — when this returns an error the real Parse
certainly errors; later parse stages and their error cases are abstracted,
so the ok result over-approximates the set of accepted URL strings. -/
def urlParse (rawURL : String) : Except String Unit :=
  if stringContainsCTLByte rawURL then
    Except.error "net/url: invalid control character in URL"
  else Except.ok ()

/-- What constructing the reverse proxy route yields: a Go panic(rawURL), or
the proxy handler. -/
inductive ConstructResult where
  | panicked (v : String)
  | proxyHandler
  deriving DecidableEq, Repr

/-- mustReverseProxy: parse the configured URL; on a parse error, log it and
panic with the raw URL (this runs inside New, during startup); on success
build the httputil.ReverseProxy handler. -/
def mustReverseProxy (rawURL : String) : List LogEvent × ConstructResult :=
  match urlParse rawURL with
  | Except.error _ =>
    ([LogEvent.proxyURLParseError rawURL], ConstructResult.panicked rawURL)
  | Except.ok _ => ([], ConstructResult.proxyHandler)

/-- strings-level prefix test used below for the ServeMux subtree patterns
and for http.StripPrefix, stated on the character lists of the strings. -/
def hasPrefixGo (p s : String) : Bool :=
  p.data.isPrefixOf s.data

/-- http.StripPrefix(p, h): when the path has the (nonempty) prefix, serve h
on a copy of the request whose URL path has the prefix removed; otherwise
reply 404 via http.NotFound. -/
def stripPrefixGo (p : String) (handler : Handler) : Handler := fun r =>
  if hasPrefixGo p r.path then
    handler { r with path := String.mk (r.path.data.drop p.data.length) }
  else ([], Outcome.resp ⟨404, "404 page not found", none⟩)

/-- The configuration fields the route table reads: the expected basic auth
credentials (config.ExampleBasicAuthUser / ExampleBasicAuthPassword). -/
structure Config where
  exampleBasicAuthUser : String
  exampleBasicAuthPassword : String
  deriving DecidableEq, Repr

def notFoundHandler : Handler := fun _ =>
  ([], Outcome.resp ⟨404, "404 page not found", none⟩)

def fileServerHandler : Handler := fun r => ([], Outcome.term Terminal.staticFiles r)

def metricsHandler : Handler := fun r => ([], Outcome.term Terminal.metrics r)

def gatewayMuxHandler : Handler := fun r => ([], Outcome.term Terminal.gateway r)

def proxyHandler : Handler := fun r => ([], Outcome.term Terminal.proxy r)

def grpcServerHandler : Handler := fun r => ([], Outcome.term Terminal.grpc r)

/-- The http.ServeMux built in New (server.go lines 102-110), as its dispatch
on an already-cleaned request path: exact patterns /favicon.ico and /metrics
match exactly; subtree patterns /static/, /api/ and /examplereverseproxy/
match by prefix (these prefixes are pairwise disjoint, so longest-match
ordering is immaterial); everything else falls to the root catch-all, the
basic-auth gate around http.NotFoundHandler.  The ready flag is the value
s.ready.Load() returns when the readiness gate runs.  The trailing-slash
redirect ServeMux issues for the bare path /api is not modelled; claims only
concern paths inside or outside the subtrees. -/
def serveMux (cfg : Config) (ready : Bool) : Handler := fun r =>
  if r.path = "/favicon.ico" then fileServerHandler r
  else if r.path = "/metrics" then metricsHandler r
  else if hasPrefixGo "/static/" r.path then
    stripPrefixGo "/static/" fileServerHandler r
  else if hasPrefixGo "/api/" r.path then
    stripPrefixGo "/api" (onlyWhenReady ready (logger gatewayMuxHandler)) r
  else if hasPrefixGo "/examplereverseproxy/" r.path then
    logger proxyHandler r
  else
    requireBasicAuth cfg.exampleBasicAuthUser cfg.exampleBasicAuthPassword notFoundHandler r

/-- The complete request pipeline installed as the http.Server handler:
h2c.NewHandler(upgradeHandler(s.mux, grpcServer), ...); the h2c wrapper only
performs transport upgrades and is routing-transparent. -/
def serve (cfg : Config) (ready : Bool) : Handler :=
  upgradeHandler (serveMux cfg ready) grpcServerHandler

/-- Whether net.Listen on the configured address succeeds or fails. -/
inductive BindOutcome where
  | ok
  | fail
  deriving DecidableEq, Repr

/-- A point in the execution of the goroutine listenAndServe:
httpServerAvailable is the value of the atomic flag, listenerBound is
instrumentation recording whether net.Listen has already returned
successfully at that point (it is not a program variable). -/
structure GoPoint where
  httpServerAvailable : Bool
  listenerBound : Bool
  deriving DecidableEq, Repr

/-- The successive points of the goroutine listenAndServe (server.go lines
156-169): the flag starts false (New), is stored true on entry — before
net.Listen is called — and on a successful bind the goroutine reaches
httpServer.Serve with the listener bound; on a failed bind it returns with
the flag still true (the main loop clears it only after receiving the
closed signal).  The later Serve-error path, which clears the flag and also
signals closure, is beyond the traced window. -/
def listenAndServeTrace : BindOutcome → List GoPoint
  | BindOutcome.ok => [⟨false, false⟩, ⟨true, false⟩, ⟨true, true⟩]
  | BindOutcome.fail => [⟨false, false⟩, ⟨true, false⟩]

/-- Whether the traced window of listenAndServe sends on s.httpClosed: the
bind-failure branch does; on a successful bind the goroutine is still inside
Serve at the end of the window. -/
def listenAndServeSignalsClosed : BindOutcome → Bool
  | BindOutcome.ok => false
  | BindOutcome.fail => true

/-- The log records the traced window of listenAndServe emits, given the
listen address. -/
def listenAndServeLogs : BindOutcome → String → List LogEvent
  | BindOutcome.ok, _ => []
  | BindOutcome.fail, addr => [LogEvent.failedToListen addr]

/-- Which select case ListenAndServe wakes on: a value on s.httpClosed, or
cancellation of the lifecycle context. -/
inductive MainEvent where
  | httpClosed
  | ctxDone
  deriving DecidableEq, Repr

/-- The sequential body of (*server).ListenAndServe (server.go lines
120-154), with its external calls as parameters: connectErr and migrateErr
are the results of db.Connect and migrations.Migrate (none on success), ev
the select case that fires, shutdownErr the result of httpServer.Shutdown on
the cancellation path.  Returns the log records emitted and the error value
returned to the caller (none for a nil return).  The spawned goroutines are
modelled separately above. -/
def ListenAndServe (connectErr migrateErr : Option String) (ev : MainEvent)
    (shutdownErr : Option String) : List LogEvent × Option String :=
  match connectErr with
  | some e => ([], some ("failed to connect to database: " ++ e))
  | none =>
    match migrateErr with
    | some e => ([LogEvent.migrationFailed e], none)
    | none =>
      match ev with
      | MainEvent.httpClosed => ([LogEvent.httpServerClosed], none)
      | MainEvent.ctxDone =>
        match shutdownErr with
        | some e =>
          ([LogEvent.shutdownSignalReceived],
           some ("error during http server shutdown: " ++ e))
        | none =>
          ([LogEvent.shutdownSignalReceived, LogEvent.httpServerShutdownGracefully],
           none)

/-- The basic-auth catch-all installed on the root pattern in New:
requireBasicAuth around http.NotFoundHandler(). -/
def rootRoute (cfg : Config) : Handler :=
  requireBasicAuth cfg.exampleBasicAuthUser cfg.exampleBasicAuthPassword notFoundHandler

/-- Helper: the HTTP side of the demultiplexer never hands a request to the
gRPC server — no branch of the mux, its middleware or its terminal handlers
produces the grpc terminal. -/
theorem serveMux_outcome_not_grpc (cfg : Config) (ready : Bool) (r q : Request) :
    (serveMux cfg ready r).2 ≠ Outcome.term Terminal.grpc q := by
  simp only [serveMux, stripPrefixGo, onlyWhenReady, logger, requireBasicAuth,
    fileServerHandler, metricsHandler, gatewayMuxHandler, proxyHandler, notFoundHandler]
  repeat' split
  all_goals simp

/-- Claim C2 (confirmed): the demultiplexer routes a request to the gRPC
server iff it is HTTP/2 with Content-Type exactly application/grpc; every
other request — HTTP/2 with another content type, or any HTTP/1.1 request —
is handled by the plain HTTP handler chain (the mux). -/
theorem serve_demux_grpc_iff (cfg : Config) (ready : Bool) (r : Request) :
    ((serve cfg ready r).2 = Outcome.term Terminal.grpc r
       ↔ r.protoMajor = 2 ∧ r.contentType = "application/grpc")
    ∧ (¬(r.protoMajor = 2 ∧ r.contentType = "application/grpc") →
        serve cfg ready r = serveMux cfg ready r) := by
  constructor
  · constructor
    · intro hgrpc
      by_contra hn
      have hbase : serve cfg ready r = serveMux cfg ready r := by
        simp [serve, upgradeHandler, hn]
      rw [hbase] at hgrpc
      exact serveMux_outcome_not_grpc cfg ready r r hgrpc
    · intro hcond
      obtain ⟨h1, h2⟩ := hcond
      simp [serve, upgradeHandler, h1, h2, grpcServerHandler]
  · intro hn
    simp [serve, upgradeHandler, hn]

/-- Claim C10 (confirmed): the Content-Type comparison is exact string
equality with application/grpc, so an HTTP/2 request carrying a gRPC subtype
such as application/grpc+proto or application/grpc+json is routed to the
plain HTTP handler chain, not to the gRPC server. -/
theorem grpc_subtype_routed_to_http_chain (cfg : Config) (ready : Bool) (r : Request)
    (hproto : r.protoMajor = 2)
    (hct : r.contentType = "application/grpc+proto"
       ∨ r.contentType = "application/grpc+json") :
    serve cfg ready r = serveMux cfg ready r := by
  have hn : ¬(r.protoMajor = 2 ∧ r.contentType = "application/grpc") := by
    rcases hct with h | h <;> simp [h]
  simp [serve, upgradeHandler, hn]

/-- Witness for C10 at a concrete HTTP/2 request with Content-Type
application/grpc+proto. -/
theorem grpc_subtype_routed_to_http_chain_witness :
    serve ⟨"user", "password"⟩ true
        ⟨"POST", "/api/ExamplePost", "", 2, "application/grpc+proto", none⟩
      = serveMux ⟨"user", "password"⟩ true
        ⟨"POST", "/api/ExamplePost", "", 2, "application/grpc+proto", none⟩ :=
  grpc_subtype_routed_to_http_chain ⟨"user", "password"⟩ true
    ⟨"POST", "/api/ExamplePost", "", 2, "application/grpc+proto", none⟩ rfl (Or.inl rfl)

/-- Claim C3 (confirmed): the readiness gate returns 503 with body
service-not-ready iff the ready flag is false at the moment the gate runs —
and then the wrapped handler is irrelevant, it is never invoked; when the
flag is true the gate is the wrapped handler applied to the unchanged
request. -/
theorem onlyWhenReady_gate_503_iff (ready : Bool) (h h₂ : Handler) (r : Request) :
    (ready = false →
       onlyWhenReady ready h r
         = ([LogEvent.notReady r.method r.urlRedacted],
            Outcome.resp ⟨503, "service not ready", none⟩)
       ∧ onlyWhenReady ready h r = onlyWhenReady ready h₂ r)
    ∧ (ready = true → onlyWhenReady ready h r = h r) := by
  cases ready <;> simp [onlyWhenReady]

/-- Claim C5 (confirmed): on the basic-auth root catch-all, a missing
Authorization header or mismatching credentials yields a 401 with the
WWW-Authenticate challenge set and a log record holding only the method, the
redacted URL and the attempted username (the password appears in no record),
without invoking the wrapped handler; matching credentials invoke the
wrapped http.NotFoundHandler, yielding 404. -/
theorem requireBasicAuth_root_gate (cfg : Config) (r : Request) :
    (r.basicAuth = none →
       rootRoute cfg r
         = ([LogEvent.unauthorized r.method r.urlRedacted ""],
            Outcome.resp ⟨401, "Unauthorized", some "Basic realm=\"Restricted\""⟩))
    ∧ (∀ u p, r.basicAuth = some (u, p) →
        ¬(u = cfg.exampleBasicAuthUser ∧ p = cfg.exampleBasicAuthPassword) →
       rootRoute cfg r
         = ([LogEvent.unauthorized r.method r.urlRedacted u],
            Outcome.resp ⟨401, "Unauthorized", some "Basic realm=\"Restricted\""⟩))
    ∧ (r.basicAuth = some (cfg.exampleBasicAuthUser, cfg.exampleBasicAuthPassword) →
       rootRoute cfg r
         = ([LogEvent.authorized r.method r.urlRedacted cfg.exampleBasicAuthUser],
            Outcome.resp ⟨404, "404 page not found", none⟩)) := by
  refine ⟨?_, ?_, ?_⟩
  · intro hnone
    simp [rootRoute, requireBasicAuth, hnone]
  · intro u p hsome hne
    rcases not_and_or.mp hne with hbad | hbad <;>
      simp [rootRoute, requireBasicAuth, constantTimeCompare, hsome, hbad]
  · intro hsome
    simp [rootRoute, requireBasicAuth, constantTimeCompare, hsome, notFoundHandler]

/-- Counterexample to claim C1: the probe routes are not exempt from the
gates.  With ready=false, GET /api/probe/live is rejected by the readiness
gate with 503 before the probe handler runs, while with ready=true the same
request reaches the gateway — so the response depends on the ready flag;
and the bare path /probe/live falls to the root catch-all, answering 401
with an authentication challenge when no credentials are given. -/
theorem probe_routes_gated_cex :
    (serve ⟨"admin", "secret"⟩ false ⟨"GET", "/api/probe/live", "", 1, "", none⟩).2
      = Outcome.resp ⟨503, "service not ready", none⟩
    ∧ (serve ⟨"admin", "secret"⟩ true ⟨"GET", "/api/probe/live", "", 1, "", none⟩).2
      = Outcome.term Terminal.gateway ⟨"GET", "/probe/live", "", 1, "", none⟩
    ∧ (serve ⟨"admin", "secret"⟩ true ⟨"GET", "/probe/live", "", 1, "", none⟩).2
      = Outcome.resp ⟨401, "Unauthorized", some "Basic realm=\"Restricted\""⟩ :=
  ⟨rfl, rfl, rfl⟩

/-- Claim C1 (corrected): the probe routes live in the gateway mux, which is
mounted only under the /api/ prefix behind the readiness gate — a request to
/api/probe/{startup,live,ready} is rejected with 503 whenever ready=false
and reaches the gateway (with /api stripped) only when ready=true; the bare
paths /probe/* hit the root catch-all, which demands basic authentication
before returning its not-found response. -/
theorem probe_routes_readiness_gated (cfg : Config) (m : String) :
    (serve cfg false ⟨m, "/api/probe/startup", "", 1, "", none⟩
       = ([LogEvent.notReady m "/probe/startup"],
          Outcome.resp ⟨503, "service not ready", none⟩)
     ∧ serve cfg true ⟨m, "/api/probe/startup", "", 1, "", none⟩
       = ([LogEvent.request m "/probe/startup"],
          Outcome.term Terminal.gateway ⟨m, "/probe/startup", "", 1, "", none⟩)
     ∧ serve cfg true ⟨m, "/probe/startup", "", 1, "", none⟩
       = ([LogEvent.unauthorized m "/probe/startup" ""],
          Outcome.resp ⟨401, "Unauthorized", some "Basic realm=\"Restricted\""⟩))
    ∧ (serve cfg false ⟨m, "/api/probe/live", "", 1, "", none⟩
       = ([LogEvent.notReady m "/probe/live"],
          Outcome.resp ⟨503, "service not ready", none⟩)
     ∧ serve cfg true ⟨m, "/api/probe/live", "", 1, "", none⟩
       = ([LogEvent.request m "/probe/live"],
          Outcome.term Terminal.gateway ⟨m, "/probe/live", "", 1, "", none⟩)
     ∧ serve cfg true ⟨m, "/probe/live", "", 1, "", none⟩
       = ([LogEvent.unauthorized m "/probe/live" ""],
          Outcome.resp ⟨401, "Unauthorized", some "Basic realm=\"Restricted\""⟩))
    ∧ (serve cfg false ⟨m, "/api/probe/ready", "", 1, "", none⟩
       = ([LogEvent.notReady m "/probe/ready"],
          Outcome.resp ⟨503, "service not ready", none⟩)
     ∧ serve cfg true ⟨m, "/api/probe/ready", "", 1, "", none⟩
       = ([LogEvent.request m "/probe/ready"],
          Outcome.term Terminal.gateway ⟨m, "/probe/ready", "", 1, "", none⟩)
     ∧ serve cfg true ⟨m, "/probe/ready", "", 1, "", none⟩
       = ([LogEvent.unauthorized m "/probe/ready" ""],
          Outcome.resp ⟨401, "Unauthorized", some "Basic realm=\"Restricted\""⟩)) :=
  ⟨⟨rfl, rfl, rfl⟩, ⟨rfl, rfl, rfl⟩, ⟨rfl, rfl, rfl⟩⟩

/-- Counterexample to claim C8: with ready=false, the request log record the
audit logger would write is absent — the only record for a rejected /api
request is the one the readiness gate itself writes, so no audit entry is
recorded before the gating decision. -/
theorem audit_log_missing_on_rejection_cex :
    (serve ⟨"user", "password"⟩ false
        ⟨"GET", "/api/ExamplePost", "", 1, "application/json", none⟩).1
      = [LogEvent.notReady "GET" "/ExamplePost"]
    ∧ LogEvent.request "GET" "/ExamplePost"
        ∉ (serve ⟨"user", "password"⟩ false
            ⟨"GET", "/api/ExamplePost", "", 1, "application/json", none⟩).1 := by
  decide

/-- Claim C8 (corrected): on the gated /api subtree the readiness gate wraps
the audit logger, not the other way round — a request rejected for
unreadiness produces only the gate log record (method and redacted URL) and
never the audit request record, which is written only after the gate has
passed the request through. -/
theorem audit_logger_inside_ready_gate (cfg : Config) (m : String) :
    serve cfg false ⟨m, "/api/ExampleGet", "", 1, "application/json", none⟩
      = ([LogEvent.notReady m "/ExampleGet"],
         Outcome.resp ⟨503, "service not ready", none⟩)
    ∧ serve cfg true ⟨m, "/api/ExampleGet", "", 1, "application/json", none⟩
      = ([LogEvent.request m "/ExampleGet"],
         Outcome.term Terminal.gateway ⟨m, "/ExampleGet", "", 1, "application/json", none⟩) :=
  ⟨rfl, rfl⟩

/-- Counterexample to claim C9: a configured proxy URL containing an ASCII
control character fails net/url.Parse, and mustReverseProxy then panics at
construction time (inside New) instead of producing a client-visible error
status. -/
theorem proxy_parse_panic_cex :
    mustReverseProxy "http://example.com/\n"
      = ([LogEvent.proxyURLParseError "http://example.com/\n"],
         ConstructResult.panicked "http://example.com/\n") := rfl

/-- Claim C9 (corrected): for every proxy URL string the parse rejects (the
embedded error case: a control byte in the string), mustReverseProxy logs
the parse failure and panics with the raw URL while the routes are being
constructed, terminating startup; only parseable URLs yield the proxy
handler. -/
theorem proxy_url_parse_failure_panics (rawURL : String)
    (hctl : stringContainsCTLByte rawURL = true) :
    mustReverseProxy rawURL
      = ([LogEvent.proxyURLParseError rawURL], ConstructResult.panicked rawURL) := by
  simp [mustReverseProxy, urlParse, hctl]

/-- Witness for C9 at a concrete URL containing a tab character. -/
theorem proxy_url_parse_failure_panics_witness :
    mustReverseProxy "http://bad\thost"
      = ([LogEvent.proxyURLParseError "http://bad\thost"],
         ConstructResult.panicked "http://bad\thost") :=
  proxy_url_parse_failure_panics "http://bad\thost" rfl

/-- Counterexample to claim C4: when the bind fails the goroutine signals
the closed channel, and ListenAndServe — with the datastore connect and the
migration succeeding — then returns none, not an error. -/
theorem bind_failure_returns_nil_cex :
    listenAndServeSignalsClosed BindOutcome.fail = true
    ∧ (ListenAndServe none none MainEvent.httpClosed none).2 = none :=
  ⟨rfl, rfl⟩

/-- Claim C4 (corrected): a failed bind makes the listener goroutine log the
failure and signal s.httpClosed; the main loop of ListenAndServe receives
the signal, logs that the http server closed, and returns nil — the bind
failure is not surfaced as an error to the caller. -/
theorem bind_failure_no_error (addr : String) :
    listenAndServeSignalsClosed BindOutcome.fail = true
    ∧ listenAndServeLogs BindOutcome.fail addr = [LogEvent.failedToListen addr]
    ∧ ListenAndServe none none MainEvent.httpClosed none
        = ([LogEvent.httpServerClosed], none) :=
  ⟨rfl, rfl, rfl⟩

/-- Claim C6 (confirmed): a migration failure is logged and absorbed — for
every migration error, ListenAndServe (after a successful datastore connect)
emits the migration-failed record and returns nil to its caller, regardless
of any later event or shutdown result, leaving the already-spawned listener
and monitor goroutines running. -/
theorem migration_failure_logged_and_absorbed (e : String) (ev : MainEvent)
    (shutdownErr : Option String) :
    ListenAndServe none (some e) ev shutdownErr
      = ([LogEvent.migrationFailed e], none) := rfl

/-- Counterexample to claim C7: the execution of the listener goroutine on a
failed bind passes through a state where httpServerAvailable is true while
the listener is not bound. -/
theorem listener_flag_before_bind_cex :
    GoPoint.mk true false ∈ listenAndServeTrace BindOutcome.fail
    ∧ (GoPoint.mk true false).httpServerAvailable = true
    ∧ (GoPoint.mk true false).listenerBound = false := by decide

/-- Claim C7 (corrected): the goroutine stores httpServerAvailable=true on
entry, before attempting the bind, so on every execution a state with the
flag true and the listener not yet bound is reached; on a failed bind the
goroutine ends with the flag still true (cleared only later, by the main
loop on receiving the closed signal) — the flag therefore does not imply
the listener is bound and accepting. -/
theorem httpServerAvailable_set_before_bind (b : BindOutcome) :
    GoPoint.mk true false ∈ listenAndServeTrace b
    ∧ (listenAndServeTrace b).head? = some (GoPoint.mk false false)
    ∧ (b = BindOutcome.fail →
        listenAndServeSignalsClosed b = true
        ∧ (listenAndServeTrace b).getLast? = some (GoPoint.mk true false)) := by
  cases b <;> decide

end Gonfoot
